import Mathlib

/-!
# Shallow embedding of the `FunWithShapes` shape hierarchy

The repository holds two C++ files, `src/Shape.cc` and a second file
(`Shape_RAII.cc`, shipped as `src/unnamed/part_000`), whose class
hierarchies `Shape` / `Circle` / `Polygon` / `Rectangle` / `Square` /
`Trapezoid` are textually identical; only the `main` demonstration
drivers differ.  This development embeds both hierarchies.

Modelling conventions:
* C++ `double` is an arbitrary `Field α` (instantiated at `ℝ` in the
  theorems); decimal literals of the source denote the rationals they
  spell, so `const double PI = 3.14159;` becomes `314159 / 100000`.
* `std::string` is `String`, `unsigned int` is `ℕ`.
* `std::sqrt` is an abstract parameter `sqrt : α → α` (instantiated at
  `Real.sqrt`), and `std::pow (x, 2)` is `x ^ 2`.
* Every virtual member function is a total function on the closed sum
  `ConcreteShape` of the instantiable classes; the match arm for each
  variant transcribes the body of the most-derived override that the
  vtable of that dynamic type selects.  A call is a `CallResult`: the
  object after the call (the source bodies never assign to a member, so
  the transcription returns the receiver unchanged), the returned value,
  and the lines printed by the call.
* The heap cell `Trapezoid::m_angled_side_length` (a `new double` owned
  by the object) is modelled by an inline field holding the pointee
  together with an explicit allocation/deallocation accounting:
  `ctorHeapAllocs` counts the `new` expressions run by the constructor
  chain of a dynamic type, `dtorChain` lists the destructors that
  `delete` on a base-typed handle runs (most derived first, because
  every destructor in the source gets the `virtual` keyword), and
  `dtorFrees` counts the `delete` expressions in one destructor body.
-/

/-- The one observable side effect in the hierarchy: `Square::get_area`
executes `cout << "The square of " << m_side1 << "!" << endl;`.  One event
per executed print statement, carrying the `m_side1` value printed. -/
inductive OutputEvent (α : Type) where
  | squareDiag (side : α) : OutputEvent α

/-- Result of one virtual member-function call: the receiver after the
call, the returned value, and the output printed during the call. -/
structure CallResult (σ β ω : Type) where
  state : σ
  ret : β
  out : List ω

namespace ShapeCc

/-- `const double PI = 3.14159;` (`src/Shape.cc` line 23).  The decimal
literal denotes the rational 314159/100000. -/
def PI {α : Type} [Field α] : α := 314159 / 100000

/-- Base class `Shape` (`src/Shape.cc` lines 27-48): the single data
member `m_name`.  Its constructor is `protected`, so a `Shape` exists
only as the base subobject of a concrete variant. -/
structure Shape where
  m_name : String

/-- `class Circle : public Shape` (`src/Shape.cc` lines 50-71): data
members `m_radius`, `m_area`, `m_perimeter` (all `public`). -/
structure Circle (α : Type) extends Shape where
  m_radius : α
  m_area : α
  m_perimeter : α

/-- `Circle::Circle(string name, double radius)` (`src/Shape.cc` lines
55-59): stores the radius and precomputes
`m_area = radius*radius*PI`, `m_perimeter = radius*2*PI`. -/
def Circle.ctor {α : Type} [Field α] (name : String) (radius : α) : Circle α :=
  { m_name := name
    m_radius := radius
    m_area := radius * radius * PI
    m_perimeter := radius * 2 * PI }

/-- `class Polygon : public Shape` (`src/Shape.cc` lines 73-89): data
members `m_sides`, `m_area`, `m_perimeter`. -/
structure Polygon (α : Type) extends Shape where
  m_sides : ℕ
  m_area : α
  m_perimeter : α

/-- `Polygon::Polygon(string name, unsigned int sides)` (`src/Shape.cc`
lines 79-81) initialises only the name and the side count;
`m_area`/`m_perimeter` stay uninitialised, so the model receives their
indeterminate initial contents as extra parameters `area0`/`perimeter0`. -/
def Polygon.ctor {α : Type} (name : String) (sides : ℕ) (area0 perimeter0 : α) :
    Polygon α :=
  { m_name := name
    m_sides := sides
    m_area := area0
    m_perimeter := perimeter0 }

/-- `class Rectangle : public Polygon` (`src/Shape.cc` lines 91-108):
adds `m_side1`, `m_side2`. -/
structure Rectangle (α : Type) extends Polygon α where
  m_side1 : α
  m_side2 : α

/-- `Rectangle::Rectangle(string name, double side1, double side2)`
(`src/Shape.cc` lines 96-101): delegates to `Polygon(name, 4)` and
precomputes `m_area = side1*side2`, `m_perimeter = (side1+side2)*2`. -/
def Rectangle.ctor {α : Type} [Field α] (name : String) (side1 side2 : α) :
    Rectangle α :=
  { m_name := name
    m_sides := 4
    m_side1 := side1
    m_side2 := side2
    m_area := side1 * side2
    m_perimeter := (side1 + side2) * 2 }

/-- `class Square : public Rectangle` (`src/Shape.cc` lines 110-130):
no data members of its own. -/
structure Square (α : Type) extends Rectangle α

/-- `Square::Square(string name, double side)` (`src/Shape.cc` lines
112-114): delegates to `Rectangle(name, side, side)`. -/
def Square.ctor {α : Type} [Field α] (name : String) (side : α) : Square α :=
  ⟨Rectangle.ctor name side side⟩

/-- `class Trapezoid : public Polygon` (`src/Shape.cc` lines 133-165):
adds `m_long_side`, `m_short_side`, `m_height` and the owning pointer
`m_angled_side_length` (here the field holds the pointee; the allocation
itself is accounted by `ctorHeapAllocs`/`dtorChain` below). -/
structure Trapezoid (α : Type) extends Polygon α where
  m_long_side : α
  m_short_side : α
  m_height : α
  m_angled_side_length : α

/-- `Trapezoid::Trapezoid(string name, double long_side, double
short_side, double height)` (`src/Shape.cc` lines 140-152): delegates to
`Polygon(name, 4)`, sets `m_area = height*(long_side+short_side)/2`,
allocates the auxiliary double, stores
`sqrt(pow((long_side-short_side)/2,2) + pow(height,2))` into it, and sets
`m_perimeter = short_side+long_side + 2*(*m_angled_side_length)`. -/
def Trapezoid.ctor {α : Type} [Field α] (sqrt : α → α)
    (name : String) (long_side short_side height : α) : Trapezoid α :=
  { m_name := name
    m_sides := 4
    m_long_side := long_side
    m_short_side := short_side
    m_height := height
    m_area := height * (long_side + short_side) / 2
    m_angled_side_length := sqrt (((long_side - short_side) / 2) ^ 2 + height ^ 2)
    m_perimeter := short_side + long_side +
      2 * sqrt (((long_side - short_side) / 2) ^ 2 + height ^ 2) }

/-- The closed set of instantiable classes of the hierarchy, tagged by
dynamic type.  (`Shape` itself has a protected constructor and pure
virtual members, so it is not a variant.) -/
inductive ConcreteShape (α : Type) where
  | circle : Circle α → ConcreteShape α
  | polygon : Polygon α → ConcreteShape α
  | rectangle : Rectangle α → ConcreteShape α
  | square : Square α → ConcreteShape α
  | trapezoid : Trapezoid α → ConcreteShape α

/-- Virtual call `get_area()` through any handle: the vtable of the
dynamic type selects `Circle::get_area` for a circle,
`Polygon::get_area` for a polygon and (by inheritance) for a rectangle
and a trapezoid, and `Square::get_area` (which first prints
`"The square of "<<m_side1<<"!"`) for a square.  No override assigns to
a member, so the receiver is returned unchanged. -/
def ConcreteShape.get_area {α : Type} : ConcreteShape α →
    CallResult (ConcreteShape α) α (OutputEvent α)
  | .circle c => ⟨.circle c, c.m_area, []⟩
  | .polygon p => ⟨.polygon p, p.m_area, []⟩
  | .rectangle r => ⟨.rectangle r, r.m_area, []⟩
  | .square q => ⟨.square q, q.m_area, [.squareDiag q.m_side1]⟩
  | .trapezoid t => ⟨.trapezoid t, t.m_area, []⟩

/-- Virtual call `get_perimeter()` through any handle: the vtable selects
`Circle::get_perimeter` for a circle, `Rectangle::get_perimeter` (marked
`final`) for a rectangle and a square, and `Polygon::get_perimeter` for a
polygon and a trapezoid; every override returns the stored
`m_perimeter` and prints nothing. -/
def ConcreteShape.get_perimeter {α : Type} : ConcreteShape α →
    CallResult (ConcreteShape α) α (OutputEvent α)
  | .circle c => ⟨.circle c, c.m_perimeter, []⟩
  | .polygon p => ⟨.polygon p, p.m_perimeter, []⟩
  | .rectangle r => ⟨.rectangle r, r.m_perimeter, []⟩
  | .square q => ⟨.square q, q.m_perimeter, []⟩
  | .trapezoid t => ⟨.trapezoid t, t.m_perimeter, []⟩

/-- `Shape::get_name` (`src/Shape.cc` line 46) returns `m_name` (by
mutable reference; reading through the reference yields this value). -/
def ConcreteShape.get_name {α : Type} : ConcreteShape α → String
  | .circle c => c.m_name
  | .polygon p => p.m_name
  | .rectangle r => r.m_name
  | .square q => q.m_name
  | .trapezoid t => t.m_name

/-- Writing a new string through the mutable reference that
`Shape::get_name` returns (`string&`): the only mutation the interface
permits. -/
def ConcreteShape.set_name_via_ref {α : Type} :
    ConcreteShape α → String → ConcreteShape α
  | .circle c, n => .circle { c with m_name := n }
  | .polygon p, n => .polygon { p with m_name := n }
  | .rectangle r, n => .rectangle { r with m_name := n }
  | .square q, n => .square { q with toRectangle := { q.toRectangle with m_name := n } }
  | .trapezoid t, n => .trapezoid { t with m_name := n }

/-- The classes of the hierarchy, as destructor owners. -/
inductive ClassTag where
  | shape | circle | polygon | rectangle | square | trapezoid

/-- The dynamic type of a handle. -/
def ConcreteShape.dynTag {α : Type} : ConcreteShape α → ClassTag
  | .circle _ => .circle
  | .polygon _ => .polygon
  | .rectangle _ => .rectangle
  | .square _ => .square
  | .trapezoid _ => .trapezoid

/-- Heap cells allocated (`new` expressions run) by the constructor chain
of a dynamic type: only `Trapezoid::Trapezoid` allocates
(`m_angled_side_length = new double;`, `src/Shape.cc` line 146). -/
def ConcreteShape.ctorHeapAllocs {α : Type} : ConcreteShape α → ℕ
  | .trapezoid _ => 1
  | _ => 0

/-- Heap cells freed (`delete` expressions run) by one destructor body:
only `Trapezoid::~Trapezoid` frees (`delete m_angled_side_length;`,
`src/Shape.cc` line 160); every other destructor body is empty. -/
def ClassTag.dtorFrees : ClassTag → ℕ
  | .trapezoid => 1
  | _ => 0

/-- The destructor chain run by `delete` on a handle typed as `Shape*`
(or `Polygon*`), most-derived class first: because `Shape::~Shape` is
`virtual` (`src/Shape.cc` lines 39-41) and so are all derived
destructors, dispatch starts at the destructor of the dynamic type and
then runs the base destructors in order. -/
def ConcreteShape.dtorChain {α : Type} : ConcreteShape α → List ClassTag
  | .circle _ => [.circle, .shape]
  | .polygon _ => [.polygon, .shape]
  | .rectangle _ => [.rectangle, .polygon, .shape]
  | .square _ => [.square, .rectangle, .polygon, .shape]
  | .trapezoid _ => [.trapezoid, .polygon, .shape]

/-- Total heap cells freed by `delete` on a base-typed handle. -/
def ConcreteShape.deleteViaBase {α : Type} (s : ConcreteShape α) : ℕ :=
  (s.dtorChain.map ClassTag.dtorFrees).sum

end ShapeCc

namespace ShapeRAII

/-!
The second source file (`Shape_RAII.cc`, shipped as
`src/unnamed/part_000`) defines the same class hierarchy, textually
identical to the one in `src/Shape.cc` (only its `main` differs, using
`shared_ptr`/`unique_ptr` instead of raw `new`/`delete`).  Its classes
are embedded here independently, from that file's own text (lines
31-169), so that the two hierarchies can be compared. -/

/-- `const double PI = 3.14159;` (`src/unnamed/part_000` line 27). -/
def PI {α : Type} [Field α] : α := 314159 / 100000

/-- Base class `Shape` (`src/unnamed/part_000` lines 31-52). -/
structure Shape where
  m_name : String

/-- `class Circle : public Shape` (`src/unnamed/part_000` lines 54-75). -/
structure Circle (α : Type) extends Shape where
  m_radius : α
  m_area : α
  m_perimeter : α

/-- `Circle::Circle(string name, double radius)`
(`src/unnamed/part_000` lines 59-63). -/
def Circle.ctor {α : Type} [Field α] (name : String) (radius : α) : Circle α :=
  { m_name := name
    m_radius := radius
    m_area := radius * radius * PI
    m_perimeter := radius * 2 * PI }

/-- `class Polygon : public Shape` (`src/unnamed/part_000` lines 77-93). -/
structure Polygon (α : Type) extends Shape where
  m_sides : ℕ
  m_area : α
  m_perimeter : α

/-- `Polygon::Polygon(string name, unsigned int sides)`
(`src/unnamed/part_000` lines 83-85); `m_area`/`m_perimeter` stay
uninitialised, modelled by parameters `area0`/`perimeter0`. -/
def Polygon.ctor {α : Type} (name : String) (sides : ℕ) (area0 perimeter0 : α) :
    Polygon α :=
  { m_name := name
    m_sides := sides
    m_area := area0
    m_perimeter := perimeter0 }

/-- `class Rectangle : public Polygon` (`src/unnamed/part_000` lines 95-112). -/
structure Rectangle (α : Type) extends Polygon α where
  m_side1 : α
  m_side2 : α

/-- `Rectangle::Rectangle(string name, double side1, double side2)`
(`src/unnamed/part_000` lines 100-105). -/
def Rectangle.ctor {α : Type} [Field α] (name : String) (side1 side2 : α) :
    Rectangle α :=
  { m_name := name
    m_sides := 4
    m_side1 := side1
    m_side2 := side2
    m_area := side1 * side2
    m_perimeter := (side1 + side2) * 2 }

/-- `class Square : public Rectangle` (`src/unnamed/part_000` lines 114-134). -/
structure Square (α : Type) extends Rectangle α

/-- `Square::Square(string name, double side)`
(`src/unnamed/part_000` lines 116-118). -/
def Square.ctor {α : Type} [Field α] (name : String) (side : α) : Square α :=
  ⟨Rectangle.ctor name side side⟩

/-- `class Trapezoid : public Polygon` (`src/unnamed/part_000` lines 137-169). -/
structure Trapezoid (α : Type) extends Polygon α where
  m_long_side : α
  m_short_side : α
  m_height : α
  m_angled_side_length : α

/-- `Trapezoid::Trapezoid(string name, double long_side, double
short_side, double height)` (`src/unnamed/part_000` lines 144-156). -/
def Trapezoid.ctor {α : Type} [Field α] (sqrt : α → α)
    (name : String) (long_side short_side height : α) : Trapezoid α :=
  { m_name := name
    m_sides := 4
    m_long_side := long_side
    m_short_side := short_side
    m_height := height
    m_area := height * (long_side + short_side) / 2
    m_angled_side_length := sqrt (((long_side - short_side) / 2) ^ 2 + height ^ 2)
    m_perimeter := short_side + long_side +
      2 * sqrt (((long_side - short_side) / 2) ^ 2 + height ^ 2) }

/-- The closed set of instantiable classes of the `Shape_RAII.cc`
hierarchy, tagged by dynamic type. -/
inductive ConcreteShape (α : Type) where
  | circle : Circle α → ConcreteShape α
  | polygon : Polygon α → ConcreteShape α
  | rectangle : Rectangle α → ConcreteShape α
  | square : Square α → ConcreteShape α
  | trapezoid : Trapezoid α → ConcreteShape α

/-- Virtual call `get_area()` through any handle of the `Shape_RAII.cc`
hierarchy (same overrides as in `src/Shape.cc`, including the diagnostic
print of `Square::get_area`). -/
def ConcreteShape.get_area {α : Type} : ConcreteShape α →
    CallResult (ConcreteShape α) α (OutputEvent α)
  | .circle c => ⟨.circle c, c.m_area, []⟩
  | .polygon p => ⟨.polygon p, p.m_area, []⟩
  | .rectangle r => ⟨.rectangle r, r.m_area, []⟩
  | .square q => ⟨.square q, q.m_area, [.squareDiag q.m_side1]⟩
  | .trapezoid t => ⟨.trapezoid t, t.m_area, []⟩

/-- Virtual call `get_perimeter()` through any handle of the
`Shape_RAII.cc` hierarchy. -/
def ConcreteShape.get_perimeter {α : Type} : ConcreteShape α →
    CallResult (ConcreteShape α) α (OutputEvent α)
  | .circle c => ⟨.circle c, c.m_perimeter, []⟩
  | .polygon p => ⟨.polygon p, p.m_perimeter, []⟩
  | .rectangle r => ⟨.rectangle r, r.m_perimeter, []⟩
  | .square q => ⟨.square q, q.m_perimeter, []⟩
  | .trapezoid t => ⟨.trapezoid t, t.m_perimeter, []⟩

/-- `Shape::get_name` of the `Shape_RAII.cc` hierarchy
(`src/unnamed/part_000` line 50). -/
def ConcreteShape.get_name {α : Type} : ConcreteShape α → String
  | .circle c => c.m_name
  | .polygon p => p.m_name
  | .rectangle r => r.m_name
  | .square q => q.m_name
  | .trapezoid t => t.m_name

end ShapeRAII

/-!
## Claims
-/

/-- C1: Destroying any concrete shape variant through a handle typed as
the base `Shape` (or `Polygon`) runs the destructor chain of the dynamic
type, most-derived destructor first (all destructors are `virtual`), so
the heap cells freed equal exactly the cells the constructor chain
allocated — zero leaks, zero double frees — and in particular deleting a
base-typed handle to a `Trapezoid` releases its one separately allocated
angled-side scalar. -/
theorem C1_virtual_destruction_frees_exactly_what_was_allocated :
    (∀ s : ShapeCc.ConcreteShape ℝ,
      s.dtorChain.head? = some s.dynTag ∧
      s.deleteViaBase = s.ctorHeapAllocs) ∧
    (∀ t : ShapeCc.Trapezoid ℝ,
      (ShapeCc.ConcreteShape.trapezoid t).ctorHeapAllocs = 1 ∧
      (ShapeCc.ConcreteShape.trapezoid t).deleteViaBase = 1) := by
  constructor
  · intro s
    cases s <;> exact ⟨rfl, rfl⟩
  · intro t
    exact ⟨rfl, rfl⟩

/-- C2: Every `Trapezoid(name, l, s, h)` stores
`angled_side_length = sqrt(((l-s)/2)² + h²)`, its `get_area()` returns
`h*(l+s)/2` and its `get_perimeter()` returns
`s + l + 2*angled_side_length`; for `l=4, s=2, h=1` the angled side is
`√2`, the area is `3` and the perimeter is `6 + 2*√2`. -/
theorem C2_trapezoid_construction_formulas :
    (∀ (name : String) (l s h : ℝ),
      (ShapeCc.Trapezoid.ctor Real.sqrt name l s h).m_angled_side_length
          = Real.sqrt (((l - s) / 2) ^ 2 + h ^ 2) ∧
      (ShapeCc.ConcreteShape.trapezoid
          (ShapeCc.Trapezoid.ctor Real.sqrt name l s h)).get_area.ret
          = h * (l + s) / 2 ∧
      (ShapeCc.ConcreteShape.trapezoid
          (ShapeCc.Trapezoid.ctor Real.sqrt name l s h)).get_perimeter.ret
          = s + l +
            2 * (ShapeCc.Trapezoid.ctor Real.sqrt name l s h).m_angled_side_length) ∧
    ((ShapeCc.Trapezoid.ctor Real.sqrt "the stand" 4 2 1).m_angled_side_length
        = Real.sqrt 2 ∧
     (ShapeCc.ConcreteShape.trapezoid
        (ShapeCc.Trapezoid.ctor Real.sqrt "the stand" 4 2 1)).get_area.ret = 3 ∧
     (ShapeCc.ConcreteShape.trapezoid
        (ShapeCc.Trapezoid.ctor Real.sqrt "the stand" 4 2 1)).get_perimeter.ret
        = 6 + 2 * Real.sqrt 2) := by
  refine ⟨fun name l s h => ⟨rfl, rfl, rfl⟩, ?_, ?_, ?_⟩
  · show Real.sqrt (((4 - 2) / 2) ^ 2 + 1 ^ 2) = Real.sqrt 2
    norm_num
  · show (1 : ℝ) * (4 + 2) / 2 = 3
    norm_num
  · show (2 : ℝ) + 4 + 2 * Real.sqrt (((4 - 2) / 2) ^ 2 + 1 ^ 2) = 6 + 2 * Real.sqrt 2
    norm_num

/-- C3: Every `Circle(name, r)` — for all real `r`, including `r ≤ 0` —
returns `r² · π` from `get_area()` and `2 · r · π` from
`get_perimeter()`, exactly, where `π` denotes the program's constant
`PI` (`const double PI = 3.14159;`, whose exact value claim C9 pins
down). -/
theorem C3_circle_area_perimeter_formulas :
    ∀ (name : String) (r : ℝ),
      (ShapeCc.ConcreteShape.circle (ShapeCc.Circle.ctor name r)).get_area.ret
          = r ^ 2 * ShapeCc.PI ∧
      (ShapeCc.ConcreteShape.circle (ShapeCc.Circle.ctor name r)).get_perimeter.ret
          = 2 * r * ShapeCc.PI := by
  intro name r
  constructor
  · show r * r * ShapeCc.PI = r ^ 2 * ShapeCc.PI
    ring
  · show r * 2 * ShapeCc.PI = 2 * r * ShapeCc.PI
    ring

/-- C4: Every `Rectangle(name, a, b)` returns `a·b` from `get_area()`
and `2·(a+b)` from `get_perimeter()`. -/
theorem C4_rectangle_area_perimeter_formulas :
    ∀ (name : String) (a b : ℝ),
      (ShapeCc.ConcreteShape.rectangle (ShapeCc.Rectangle.ctor name a b)).get_area.ret
          = a * b ∧
      (ShapeCc.ConcreteShape.rectangle
          (ShapeCc.Rectangle.ctor name a b)).get_perimeter.ret
          = 2 * (a + b) := by
  intro name a b
  constructor
  · rfl
  · show (a + b) * 2 = 2 * (a + b)
    ring

/-- C5: A `Square(name, s)` returns the same perimeter as a
`Rectangle(name', s, s)` (whatever the names), its `get_area()` returns
`s²`, and each `get_area()` call prints the diagnostic line
`"The square of "<<m_side1<<"!"` exactly once, with `m_side1 = s`. -/
theorem C5_square_behaves_as_rectangle_plus_diagnostic :
    ∀ (name1 name2 : String) (s : ℝ),
      (ShapeCc.ConcreteShape.square
          (ShapeCc.Square.ctor name1 s)).get_perimeter.ret
        = (ShapeCc.ConcreteShape.rectangle
            (ShapeCc.Rectangle.ctor name2 s s)).get_perimeter.ret ∧
      (ShapeCc.ConcreteShape.square (ShapeCc.Square.ctor name1 s)).get_area.ret
        = s ^ 2 ∧
      (ShapeCc.ConcreteShape.square (ShapeCc.Square.ctor name1 s)).get_area.out
        = [OutputEvent.squareDiag s] := by
  intro name1 name2 s
  refine ⟨rfl, ?_, rfl⟩
  show s * s = s ^ 2
  ring

/-- C6: For every concrete variant, `get_name()` yields exactly the name
string passed at construction; and after a caller writes a new string
through the mutable reference `get_name()` exposes, `get_name()` yields
that new string instead. -/
theorem C6_get_name_returns_construction_name_unless_mutated :
    (∀ (name : String) (r : ℝ),
      (ShapeCc.ConcreteShape.circle (ShapeCc.Circle.ctor name r)).get_name = name) ∧
    (∀ (name : String) (sides : ℕ) (a0 p0 : ℝ),
      (ShapeCc.ConcreteShape.polygon
        (ShapeCc.Polygon.ctor name sides a0 p0)).get_name = name) ∧
    (∀ (name : String) (a b : ℝ),
      (ShapeCc.ConcreteShape.rectangle
        (ShapeCc.Rectangle.ctor name a b)).get_name = name) ∧
    (∀ (name : String) (s : ℝ),
      (ShapeCc.ConcreteShape.square (ShapeCc.Square.ctor name s)).get_name = name) ∧
    (∀ (name : String) (l s h : ℝ),
      (ShapeCc.ConcreteShape.trapezoid
        (ShapeCc.Trapezoid.ctor Real.sqrt name l s h)).get_name = name) ∧
    (∀ (s : ShapeCc.ConcreteShape ℝ) (n : String),
      (s.set_name_via_ref n).get_name = n) := by
  refine ⟨fun _ _ => rfl, fun _ _ _ _ => rfl, fun _ _ _ => rfl,
    fun _ _ => rfl, fun _ _ _ _ => rfl, fun s n => ?_⟩
  cases s <;> rfl

/-- C7: On every concrete shape instance, `get_area()` and
`get_perimeter()` leave the instance unchanged (so repeated calls return
the same value and the same output); `get_perimeter()` prints nothing;
and `Square`'s `get_area()` has exactly the one diagnostic print as its
only side effect. -/
theorem C7_getters_leave_state_unchanged :
    ∀ s : ShapeCc.ConcreteShape ℝ,
      s.get_area.state = s ∧
      s.get_perimeter.state = s ∧
      s.get_area.state.get_area.ret = s.get_area.ret ∧
      s.get_area.state.get_area.out = s.get_area.out ∧
      s.get_perimeter.state.get_perimeter.ret = s.get_perimeter.ret ∧
      s.get_perimeter.out = [] ∧
      (∀ q : ShapeCc.Square ℝ,
        (ShapeCc.ConcreteShape.square q).get_area.out
          = [OutputEvent.squareDiag q.m_side1] ∧
        (ShapeCc.ConcreteShape.square q).get_area.state
          = ShapeCc.ConcreteShape.square q) := by
  intro s
  cases s <;> exact ⟨rfl, rfl, rfl, rfl, rfl, rfl, fun q => ⟨rfl, rfl⟩⟩

/-- C8: Construction of every concrete variant is a total function of
its real-valued inputs — the embedded constructors return plain values,
not `Option`/`Except`, because the source has no validation, exception
or error path — and for every input, zero and negative lengths or radius
included, the stored area and perimeter are the closed-form values; in
particular `Circle("c", -1)` has area `PI` and `Rectangle("r", 0, -2)`
has area `0`. -/
theorem C8_no_validation_total_construction :
    (∀ (name : String) (r : ℝ),
      (ShapeCc.Circle.ctor name r).m_area = r * r * ShapeCc.PI ∧
      (ShapeCc.Circle.ctor name r).m_perimeter = r * 2 * ShapeCc.PI) ∧
    (∀ (name : String) (a b : ℝ),
      (ShapeCc.Rectangle.ctor name a b).m_area = a * b ∧
      (ShapeCc.Rectangle.ctor name a b).m_perimeter = (a + b) * 2) ∧
    (∀ (name : String) (s : ℝ),
      (ShapeCc.Square.ctor name s).m_area = s * s ∧
      (ShapeCc.Square.ctor name s).m_perimeter = (s + s) * 2) ∧
    (∀ (name : String) (l s h : ℝ),
      (ShapeCc.Trapezoid.ctor Real.sqrt name l s h).m_area
          = h * (l + s) / 2 ∧
      (ShapeCc.Trapezoid.ctor Real.sqrt name l s h).m_perimeter
          = s + l + 2 * Real.sqrt (((l - s) / 2) ^ 2 + h ^ 2)) ∧
    ((ShapeCc.Circle.ctor "c" (-1 : ℝ)).m_area = ShapeCc.PI ∧
     (ShapeCc.Rectangle.ctor "r" (0 : ℝ) (-2)).m_area = 0) := by
  refine ⟨fun _ _ => ⟨rfl, rfl⟩, fun _ _ _ => ⟨rfl, rfl⟩,
    fun _ _ => ⟨rfl, rfl⟩, fun _ _ _ _ => ⟨rfl, rfl⟩, ?_, ?_⟩
  · show (-1 : ℝ) * (-1) * ShapeCc.PI = ShapeCc.PI
    ring
  · show (0 : ℝ) * (-2) = 0
    ring

/-- C9: `Circle`'s area and perimeter use the literal constant `3.14159`
in place of `π`: for every radius `r`, `get_area()` returns
`r·r·3.14159` and `get_perimeter()` returns `2·r·3.14159` exactly, and a
`Circle` of radius `1` has area `3.14159`, which is not the real number
`π`. -/
theorem C9_pi_is_the_literal_3_14159 :
    (∀ (name : String) (r : ℝ),
      (ShapeCc.ConcreteShape.circle (ShapeCc.Circle.ctor name r)).get_area.ret
          = r * r * 3.14159 ∧
      (ShapeCc.ConcreteShape.circle (ShapeCc.Circle.ctor name r)).get_perimeter.ret
          = 2 * r * 3.14159) ∧
    (ShapeCc.ConcreteShape.circle (ShapeCc.Circle.ctor "c" (1 : ℝ))).get_area.ret
        = 3.14159 ∧
    (ShapeCc.ConcreteShape.circle (ShapeCc.Circle.ctor "c" (1 : ℝ))).get_area.ret
        ≠ Real.pi := by
  have hlit : (ShapeCc.PI : ℝ) = 3.14159 := by
    show (314159 / 100000 : ℝ) = 3.14159
    norm_num
  refine ⟨fun name r => ⟨?_, ?_⟩, ?_, ?_⟩
  · show r * r * ShapeCc.PI = r * r * 3.14159
    rw [hlit]
  · show r * 2 * ShapeCc.PI = 2 * r * 3.14159
    rw [hlit]; ring
  · show (1 : ℝ) * 1 * ShapeCc.PI = 3.14159
    rw [hlit]; ring
  · show (1 : ℝ) * 1 * ShapeCc.PI ≠ Real.pi
    rw [show (1 : ℝ) * 1 * ShapeCc.PI = ShapeCc.PI by ring]
    exact ne_of_lt (lt_trans (by norm_num [ShapeCc.PI]) Real.pi_gt_d6)

/-- C10: The hierarchies of the two source files are identical in
behaviour: for the same constructor arguments, the `Circle`, `Polygon`,
`Rectangle`, `Square` and `Trapezoid` variants of `src/Shape.cc` and of
`src/unnamed/part_000` agree on `get_name()`, `get_area()` and
`get_perimeter()`, output of `Square::get_area` included. -/
theorem C10_the_two_source_files_agree :
    (∀ (name : String) (r : ℝ),
      (ShapeCc.ConcreteShape.circle (ShapeCc.Circle.ctor name r)).get_name
        = (ShapeRAII.ConcreteShape.circle (ShapeRAII.Circle.ctor name r)).get_name ∧
      (ShapeCc.ConcreteShape.circle (ShapeCc.Circle.ctor name r)).get_area.ret
        = (ShapeRAII.ConcreteShape.circle (ShapeRAII.Circle.ctor name r)).get_area.ret ∧
      (ShapeCc.ConcreteShape.circle (ShapeCc.Circle.ctor name r)).get_perimeter.ret
        = (ShapeRAII.ConcreteShape.circle
            (ShapeRAII.Circle.ctor name r)).get_perimeter.ret) ∧
    (∀ (name : String) (sides : ℕ) (a0 p0 : ℝ),
      (ShapeCc.ConcreteShape.polygon (ShapeCc.Polygon.ctor name sides a0 p0)).get_name
        = (ShapeRAII.ConcreteShape.polygon
            (ShapeRAII.Polygon.ctor name sides a0 p0)).get_name ∧
      (ShapeCc.ConcreteShape.polygon
          (ShapeCc.Polygon.ctor name sides a0 p0)).get_area.ret
        = (ShapeRAII.ConcreteShape.polygon
            (ShapeRAII.Polygon.ctor name sides a0 p0)).get_area.ret ∧
      (ShapeCc.ConcreteShape.polygon
          (ShapeCc.Polygon.ctor name sides a0 p0)).get_perimeter.ret
        = (ShapeRAII.ConcreteShape.polygon
            (ShapeRAII.Polygon.ctor name sides a0 p0)).get_perimeter.ret) ∧
    (∀ (name : String) (a b : ℝ),
      (ShapeCc.ConcreteShape.rectangle (ShapeCc.Rectangle.ctor name a b)).get_name
        = (ShapeRAII.ConcreteShape.rectangle
            (ShapeRAII.Rectangle.ctor name a b)).get_name ∧
      (ShapeCc.ConcreteShape.rectangle (ShapeCc.Rectangle.ctor name a b)).get_area.ret
        = (ShapeRAII.ConcreteShape.rectangle
            (ShapeRAII.Rectangle.ctor name a b)).get_area.ret ∧
      (ShapeCc.ConcreteShape.rectangle
          (ShapeCc.Rectangle.ctor name a b)).get_perimeter.ret
        = (ShapeRAII.ConcreteShape.rectangle
            (ShapeRAII.Rectangle.ctor name a b)).get_perimeter.ret) ∧
    (∀ (name : String) (s : ℝ),
      (ShapeCc.ConcreteShape.square (ShapeCc.Square.ctor name s)).get_name
        = (ShapeRAII.ConcreteShape.square (ShapeRAII.Square.ctor name s)).get_name ∧
      (ShapeCc.ConcreteShape.square (ShapeCc.Square.ctor name s)).get_area.ret
        = (ShapeRAII.ConcreteShape.square
            (ShapeRAII.Square.ctor name s)).get_area.ret ∧
      (ShapeCc.ConcreteShape.square (ShapeCc.Square.ctor name s)).get_area.out
        = (ShapeRAII.ConcreteShape.square
            (ShapeRAII.Square.ctor name s)).get_area.out ∧
      (ShapeCc.ConcreteShape.square (ShapeCc.Square.ctor name s)).get_perimeter.ret
        = (ShapeRAII.ConcreteShape.square
            (ShapeRAII.Square.ctor name s)).get_perimeter.ret) ∧
    (∀ (name : String) (l s h : ℝ),
      (ShapeCc.ConcreteShape.trapezoid
          (ShapeCc.Trapezoid.ctor Real.sqrt name l s h)).get_name
        = (ShapeRAII.ConcreteShape.trapezoid
            (ShapeRAII.Trapezoid.ctor Real.sqrt name l s h)).get_name ∧
      (ShapeCc.ConcreteShape.trapezoid
          (ShapeCc.Trapezoid.ctor Real.sqrt name l s h)).get_area.ret
        = (ShapeRAII.ConcreteShape.trapezoid
            (ShapeRAII.Trapezoid.ctor Real.sqrt name l s h)).get_area.ret ∧
      (ShapeCc.ConcreteShape.trapezoid
          (ShapeCc.Trapezoid.ctor Real.sqrt name l s h)).get_perimeter.ret
        = (ShapeRAII.ConcreteShape.trapezoid
            (ShapeRAII.Trapezoid.ctor Real.sqrt name l s h)).get_perimeter.ret) := by
  exact ⟨fun _ _ => ⟨rfl, rfl, rfl⟩, fun _ _ _ _ => ⟨rfl, rfl, rfl⟩,
    fun _ _ _ => ⟨rfl, rfl, rfl⟩, fun _ _ => ⟨rfl, rfl, rfl, rfl⟩,
    fun _ _ _ _ => ⟨rfl, rfl, rfl⟩⟩
